import Mathlib

/-!
# Verification of the `get-todos` subsystem

A shallow embedding of the todo-extraction/consolidation logic of this
repository: the root script `get-todos.py` and the packaged module
`src/raycast_scripts/get_todos.py`.  Python strings are Lean `String`s
(kernel-level a wrapped `List Char`, matching Python's code-point view),
file systems are explicit trees, the unspecified iteration order of a
Python `set` is an explicit parameter constrained by a validity predicate,
and console/exit-code effects are returned in a `RunResult` record.
-/

/-! ## Python string primitives -/

/-- The whitespace characters removed by Python's `str.strip()` (restricted to
the ASCII range; the source files only ever produce ASCII whitespace here). -/
def pyWS (c : Char) : Bool :=
  c = ' ' || c = '\t' || c = '\n' || c = '\r' || c = '\x0b' || c = '\x0c'

/-- `str.strip()` on the character list: drop leading and trailing whitespace. -/
def stripData (l : List Char) : List Char :=
  ((l.dropWhile pyWS).reverse.dropWhile pyWS).reverse

/-- Python `line.strip()`. -/
def pyStrip (s : String) : String :=
  ⟨stripData s.data⟩

/-- Python's substring test `needle in haystack` (second argument is the
needle), by scanning every suffix for a prefix match. -/
def containsData (haystack needle : List Char) : Bool :=
  match haystack with
  | [] => needle.isEmpty
  | c :: rest => needle.isPrefixOf (c :: rest) || containsData rest needle

/-- Python `needle in haystack` on strings. -/
def strContains (haystack needle : String) : Bool :=
  containsData haystack.data needle.data

/-- Python `s.endswith(suffix)`. -/
def strEndsWith (s suffix : String) : Bool :=
  suffix.data.isSuffixOf s.data

/-- Python `s.startswith(p)` (used only in theorem statements, to pick
heading lines out of the serialized output). -/
def strStartsWith (s p : String) : Bool :=
  p.data.isPrefixOf s.data

/-! ## Python's lexicographic string order

Python compares strings lexicographically by code point; `sorted` on a set of
strings returns the distinct elements in ascending order of this comparison. -/

/-- Lexicographic (code-point) comparison of character lists, as Python
compares strings: `lexLe a b` is `a <= b`. -/
def lexLe : List Char → List Char → Bool
  | [], _ => true
  | _ :: _, [] => false
  | a :: as, b :: bs => if a = b then lexLe as bs else decide (a < b)

/-- Python's `<=` on strings. -/
def pyStrLe (a b : String) : Prop :=
  lexLe a.data b.data = true

instance (a b : String) : Decidable (pyStrLe a b) := by
  unfold pyStrLe; infer_instance

theorem lexLe_trans : ∀ {a b c : List Char},
    lexLe a b = true → lexLe b c = true → lexLe a c = true
  | [], _, _, _, _ => rfl
  | _ :: _, [], _, h, _ => by simp [lexLe] at h
  | _ :: _, _ :: _, [], _, h => by simp [lexLe] at h
  | a :: as, b :: bs, c :: cs, h₁, h₂ => by
    simp only [lexLe] at h₁ h₂ ⊢
    by_cases hab : a = b
    · subst hab
      by_cases hbc : a = c
      · subst hbc
        simpa using lexLe_trans (by simpa using h₁) (by simpa using h₂)
      · simpa [hbc] using by simpa [hbc] using h₂
    · by_cases hbc : b = c
      · subst hbc; simpa [hab] using by simpa [hab] using h₁
      · have hab' : a < b := by simpa [hab] using h₁
        have hbc' : b < c := by simpa [hbc] using h₂
        have hac : a < c := lt_trans hab' hbc'
        have : a ≠ c := ne_of_lt hac
        simp [this, hac]

theorem lexLe_total : ∀ (a b : List Char), lexLe a b = true ∨ lexLe b a = true
  | [], _ => Or.inl rfl
  | _ :: _, [] => Or.inr rfl
  | a :: as, b :: bs => by
    by_cases hab : a = b
    · subst hab
      rcases lexLe_total as bs with h | h
      · exact Or.inl (by simpa [lexLe] using h)
      · exact Or.inr (by simpa [lexLe] using h)
    · rcases lt_or_gt_of_ne hab with h | h
      · exact Or.inl (by simp [lexLe, hab, h])
      · exact Or.inr (by simp [lexLe, Ne.symm hab, h])

instance : IsTrans String pyStrLe :=
  ⟨fun _ _ _ h₁ h₂ => lexLe_trans h₁ h₂⟩

instance : IsTotal String pyStrLe :=
  ⟨fun a b => lexLe_total a.data b.data⟩

/-! ## POSIX path operations (`os.path`), as used by the root script -/

/-- The POSIX path separator. -/
def SEP : Char := '/'

/-- `posixpath.join(a, b)` for the two-argument calls made by the source. -/
def pathJoin (a b : String) : String :=
  if b.data.head? = some SEP then b
  else if a = "" || a.data.getLast? = some SEP then a ++ b
  else a ++ "/" ++ b

/-- Strip trailing separators, as `head.rstrip(sep)` inside `posixpath.split`. -/
def rstripSep (l : List Char) : List Char :=
  (l.reverse.dropWhile (fun c => c = SEP)).reverse

/-- `posixpath.split(p)`: split off everything after the final slash; the head
keeps trailing slashes only when it consists solely of slashes. -/
def pathSplit (p : String) : String × String :=
  let tail := (p.data.reverse.takeWhile (fun c => ¬ (c = SEP))).reverse
  let head := p.data.take (p.data.length - tail.length)
  let head := if head ≠ [] ∧ ¬ head.all (fun c => c = SEP) then rstripSep head else head
  (⟨head⟩, ⟨tail⟩)

example : pathJoin "notes/" "a.md" = "notes/a.md" := by decide
example : pathJoin "notes" "a.md" = "notes/a.md" := by decide
example : pathJoin "/" "a.md" = "/a.md" := by decide
example : pathSplit "notes/a.md" = ("notes", "a.md") := by decide
example : pathSplit "notes" = ("", "notes") := by decide
example : pathSplit "/a.md" = ("/", "a.md") := by decide
example : pathSplit "/" = ("/", "") := by decide
example : pathSplit "notes//a.md" = ("notes", "a.md") := by decide

/-! ## The file-system model

A directory tree: each directory holds named subdirectories and named files.
A file's readable content is its `readlines` result (`some lines`); `none`
models a file whose `open`/decode raises `OSError`/`UnicodeDecodeError`.
List order models the operating system's directory enumeration order. -/

/-- Contents of one file, as delivered by `readlines`, or `none` on a
read/decode error. -/
abbrev FileData := Option (List String)

mutual
/-- A directory tree: named subdirectories and named files. -/
inductive FS where
  | dir : (subdirs : FSList) → (files : List (String × FileData)) → FS

/-- A listing of named subdirectories, spelled out as its own inductive so
that directory traversal is structurally recursive (and hence computable by
the kernel). -/
inductive FSList where
  | nil : FSList
  | cons : (name : String) → (tree : FS) → (rest : FSList) → FSList
end

mutual
/-- Generic top-down directory traversal (the shape shared by `os.walk` and
`Path.rglob`): yields each directory as a pair of a label and its file list,
root first, then subdirectories in listing order.  `step` builds a child
directory's label from its parent's label and its own name. -/
def walkLabeled (step : String → String → String) (label : String) :
    FS → List (String × List (String × FileData))
  | .dir subdirs files => (label, files) :: walkLabeledList step label subdirs

/-- Traversal of a subdirectory listing, in listing order. -/
def walkLabeledList (step : String → String → String) (label : String) :
    FSList → List (String × List (String × FileData))
  | .nil => []
  | .cons name tree rest =>
      walkLabeled step (step label name) tree ++ walkLabeledList step label rest
end

/-- `os.walk(path)` as used by the root script: labels are `dirpath` strings,
extended with `os.path.join`. -/
def walkFS : String → FS → List (String × List (String × FileData)) :=
  walkLabeled pathJoin

/-- The traversal underlying the packaged module's `rglob`: each directory is
labeled with its own base name (all the packaged code reads from a path is
`.name` and `.parent.name`). -/
def walkNamed : String → FS → List (String × List (String × FileData)) :=
  walkLabeled (fun _ name => name)

example :
    walkFS "notes"
      (FS.dir (FSList.cons "proj" (FS.dir FSList.nil [("a.md", some ["* [ ] x"])]) FSList.nil)
        [("top.md", some [])]) =
    [("notes", [("top.md", some [])]), ("notes/proj", [("a.md", some ["* [ ] x"])])] := by
  decide

/-! ## Shared constants and record type (identical in both sources) -/

def MARKDOWN_EXTENSION : String := ".md"

def TODO_IDENTIFIER : String := "* [ ]"

/-- `FILENAME_TODOS = f"open_todos{MARKDOWN_EXTENSION}"`. -/
def FILENAME_TODOS : String := "open_todos" ++ MARKDOWN_EXTENSION

/-- The `TodosFromNote` dataclass. -/
structure TodosFromNote where
  folder : String
  filename : String
  todos : List String
deriving DecidableEq

/-- Result of one process run: exit status, the lines written to
`open_todos.md` (`none` when no write happened), normal status output, and
the error channel (stderr / red console).  Exception texts interpolated into
messages by the sources are not modelled; each message stops at the last
model-determined character. -/
structure RunResult where
  exitCode : Nat
  written : Option (List String)
  infoMessages : List String
  errorMessages : List String
deriving DecidableEq

/-! ## The root script `get-todos.py` -/

/-- `walk_through_notes(path)`: every file under `path` whose name ends with
`.md` and is not exactly `open_todos.md`, as the joined path `os.walk` order
produces.  The file's content is carried along, standing for the later
`open(note_path)` of the same path. -/
def walk_through_notes (path : String) (fs : FS) : List (String × FileData) :=
  (walkFS path fs).flatMap (fun df =>
    df.2.filterMap (fun f =>
      if strEndsWith f.1 MARKDOWN_EXTENSION && f.1 != FILENAME_TODOS then
        some (pathJoin df.1 f.1, f.2)
      else none))

/-- `get_todos_from_note(note_path)`: derive `folder` and `filename` from the
path, read the lines (`none` content models the `OSError`/`UnicodeDecodeError`
branch, which returns `None`), and keep the stripped matching lines if any. -/
def get_todos_from_note (note_path : String) (data : FileData) : Option TodosFromNote :=
  let absolute_folder := (pathSplit note_path).1
  let filename := (pathSplit note_path).2
  let folder := (pathSplit absolute_folder).2
  match data with
  | none => none
  | some lines =>
    let todos_in_file := (lines.filter (fun line => strContains line TODO_IDENTIFIER)).map pyStrip
    if todos_in_file.isEmpty then none
    else some { folder := folder, filename := filename, todos := todos_in_file }

/-- The message `get_todos_from_note` prints to stderr when reading fails
(`f"Error reading {note_path}: {e}"`, exception text not modelled). -/
def get_todos_from_note_errlog (note_path : String) (data : FileData) : List String :=
  match data with
  | none => ["Error reading " ++ note_path]
  | some _ => []

/-- `get_todos_from_path(path)`: the records of all notes with at least one
todo, in traversal order. -/
def get_todos_from_path (path : String) (fs : FS) : List TodosFromNote :=
  (walk_through_notes path fs).filterMap (fun nd => get_todos_from_note nd.1 nd.2)

/-- The body of the per-folder loop in `format_todos` — textually identical in
the root script and in `TodoExtractor.format_todos`: a `# folder` heading,
then for each record of the folder a `## filename` heading, its todos each on
their own line, and a blank line; finally one more blank line. -/
def format_folder_block (todos : List TodosFromNote) (folder : String) : List String :=
  let files_in_folder := todos.filter (fun todo => todo.folder == folder)
  ("# " ++ folder ++ "\n") ::
    (files_in_folder.flatMap (fun todo_file =>
      ("## " ++ todo_file.filename ++ "\n") ::
        (todo_file.todos.map (fun todo => todo ++ "\n") ++ ["\n"]))
    ++ ["\n"])

/-- `folders` is a possible value of `list({todo.folder for todo in todos})`:
the distinct folder names in *some* order.  CPython's `set` iteration order
for strings depends on per-process hash randomization, so the root script's
folder order is nondeterministic; it is passed to `format_todos` as an
explicit parameter constrained by this predicate. -/
def SetOrder (folders : List String) (todos : List TodosFromNote) : Prop :=
  folders.Nodup ∧ folders ⊆ todos.map TodosFromNote.folder
    ∧ todos.map TodosFromNote.folder ⊆ folders

instance (folders : List String) (todos : List TodosFromNote) :
    Decidable (SetOrder folders todos) := by
  unfold SetOrder; infer_instance

/-- Root-script `format_todos(todos)`: iterate the set of folder names (in
the unspecified order `folders`) and emit each folder's block. -/
def format_todos (folders : List String) (todos : List TodosFromNote) : List String :=
  folders.flatMap (format_folder_block todos)

/-- `save_todos_in_one_file(path, todos)`: format and write `open_todos.md`
under `path`, reporting the number of `todos` entries (records); `writeOk`
models whether the `open`/`writelines` raises `OSError`. -/
def save_todos_in_one_file (path : String) (folders : List String)
    (todos : List TodosFromNote) (writeOk : Bool) : RunResult :=
  let path_todo_file := pathJoin path FILENAME_TODOS
  let formatted_todos := format_todos folders todos
  if writeOk then
    { exitCode := 0
      written := some formatted_todos
      infoMessages :=
        ["✅ Saved " ++ toString todos.length ++ " todo sections to " ++ path_todo_file]
      errorMessages := [] }
  else
    { exitCode := 1
      written := none
      infoMessages := []
      errorMessages := ["❌ Error saving todos to " ++ path] }

/-- `save_todos_from_notes_in_one_file(path)`, assuming the path-validation
checks passed (`fs` *is* the directory at `path`): collect the records and
either report "no todos" (exit 0, no write) or save them.  The per-file read
errors printed along the way are collected on the error channel. -/
def save_todos_from_notes_in_one_file (path : String) (fs : FS)
    (folders : List String) (writeOk : Bool) : RunResult :=
  let todos := get_todos_from_path path fs
  let readErrors :=
    (walk_through_notes path fs).flatMap (fun nd => get_todos_from_note_errlog nd.1 nd.2)
  if todos.isEmpty then
    { exitCode := 0
      written := none
      infoMessages := ["ℹ️ No todos found in the specified path"]
      errorMessages := readErrors }
  else
    let r := save_todos_in_one_file path folders todos writeOk
    { r with errorMessages := readErrors ++ r.errorMessages }

/-- The effect of the Writer on the tree: (over)write `open_todos.md` directly
under the root.  Any previous entry of that name is replaced; the new entry's
position in the listing is unspecified by the file system, modelled here by
appending. -/
def writeOutput (fs : FS) (content : List String) : FS :=
  match fs with
  | .dir subdirs files =>
    .dir subdirs
      ((files.filter (fun f => f.1 != FILENAME_TODOS)) ++ [(FILENAME_TODOS, some content)])

/-! ## The packaged module `src/raycast_scripts/get_todos.py`

`TodoExtractor` works with `pathlib.Path` values, but the only things it ever
reads off a path are its base name (`.name`) and its parent's base name
(`.parent.name`).  The model therefore represents the notes root by its base
name (`Path(notes_path).name`) plus its tree, and represents each note yielded
by `rglob` by its parent directory's name, its own name, and its content. -/

/-- The `TodoExtractor` object: the notes root directory. -/
structure TodoExtractor where
  rootName : String
  tree : FS

/-- `TodoExtractor.walk_through_notes`: `rglob("*.md")` filtered by
`file_path.name != FILENAME_TODOS`.  A name matches the glob `*.md` exactly
when it ends with `.md`.  Yields `(parent-directory name, file name, content)`
in traversal order. -/
def TodoExtractor.walk_through_notes (e : TodoExtractor) :
    List (String × String × FileData) :=
  (walkNamed e.rootName e.tree).flatMap (fun df =>
    df.2.filterMap (fun f =>
      if strEndsWith f.1 MARKDOWN_EXTENSION && f.1 != FILENAME_TODOS then
        some (df.1, f.1, f.2)
      else none))

/-- `TodoExtractor.get_todos_from_note(note_path)`: the note path is given as
its parent's name (`note_path.parent.name`) and its own name
(`note_path.name`); `none` content models the `OSError`/`UnicodeDecodeError`
branch. -/
def TodoExtractor.get_todos_from_note (folder filename : String) (data : FileData) :
    Option TodosFromNote :=
  match data with
  | none => none
  | some lines =>
    let todos := (lines.filter (fun line => strContains line TODO_IDENTIFIER)).map pyStrip
    if todos.isEmpty then none
    else some { folder := folder, filename := filename, todos := todos }

/-- The red console message of the packaged parser's error branch
(`f"❌ Error reading {note_path}: {e}"`; the path is rendered by the file's
name, the exception text is not modelled). -/
def TodoExtractor.get_todos_from_note_errlog (filename : String) (data : FileData) :
    List String :=
  match data with
  | none => ["❌ Error reading " ++ filename]
  | some _ => []

/-- `TodoExtractor.get_all_todos`. -/
def TodoExtractor.get_all_todos (e : TodoExtractor) : List TodosFromNote :=
  e.walk_through_notes.filterMap
    (fun t => TodoExtractor.get_todos_from_note t.1 t.2.1 t.2.2)

/-- `folders = sorted({todo.folder for todo in todos})`: the distinct folder
names in ascending lexicographic (code-point) order. -/
def sorted_folders (todos : List TodosFromNote) : List String :=
  ((todos.map TodosFromNote.folder).dedup).insertionSort pyStrLe

/-- `TodoExtractor.format_todos(todos)`: empty input gives empty output;
otherwise group by folder, visiting folders in sorted order. -/
def TodoExtractor.format_todos (todos : List TodosFromNote) : List String :=
  if todos.isEmpty then []
  else (sorted_folders todos).flatMap (format_folder_block todos)

/-- `TodoExtractor.save_todos(todos)`: report and skip the write on empty
input, otherwise write `open_todos.md` and report the number of records
(`writeOk` models whether the write raises `OSError`). -/
def TodoExtractor.save_todos (todos : List TodosFromNote) (writeOk : Bool) : RunResult :=
  if todos.isEmpty then
    { exitCode := 0
      written := none
      infoMessages := ["No todos found in the specified path"]
      errorMessages := [] }
  else
    let formatted_todos := TodoExtractor.format_todos todos
    if writeOk then
      { exitCode := 0
        written := some formatted_todos
        infoMessages := ["Saved " ++ toString todos.length ++ " todo sections"]
        errorMessages := [] }
    else
      { exitCode := 1
        written := none
        infoMessages := []
        errorMessages := ["Error saving todos"] }

/-- The read-error messages accumulated during `get_all_todos`. -/
def TodoExtractor.read_errors (e : TodoExtractor) : List String :=
  e.walk_through_notes.flatMap
    (fun t => TodoExtractor.get_todos_from_note_errlog t.2.1 t.2.2)

/-- One run of the packaged command (`main` body after path validation):
extract all todos, save them, with read errors on the error channel. -/
def TodoExtractor.run (e : TodoExtractor) (writeOk : Bool) : RunResult :=
  let r := TodoExtractor.save_todos e.get_all_todos writeOk
  { r with errorMessages := e.read_errors ++ r.errorMessages }

/-- The packaged writer's effect on the extractor's tree (it writes
`notes_path / FILENAME_TODOS`, i.e. at the root of the tree). -/
def TodoExtractor.afterWrite (e : TodoExtractor) (content : List String) : TodoExtractor :=
  { e with tree := writeOutput e.tree content }

/-! ## Helper lemmas: stripping -/

/-- An element surviving `dropWhile p` at the head does not satisfy `p`. -/
theorem head?_dropWhile_not {α : Type} (p : α → Bool) :
    ∀ (l : List α) (c : α), (l.dropWhile p).head? = some c → p c = false
  | [], c, h => by simp at h
  | a :: t, c, h => by
    by_cases hpa : p a = true
    · exact head?_dropWhile_not p t c (by simpa [List.dropWhile_cons, hpa] using h)
    · have ha : a = c := by simpa [List.dropWhile_cons, hpa] using h
      subst ha; simpa using hpa

/-- `strip` only removes leading and trailing whitespace: the original line is
whitespace, then the stripped text verbatim, then whitespace. -/
theorem stripData_decomp (l : List Char) :
    ∃ pre post, l = pre ++ stripData l ++ post
      ∧ pre.all pyWS = true ∧ post.all pyWS = true := by
  refine ⟨l.takeWhile pyWS, ((l.dropWhile pyWS).reverse.takeWhile pyWS).reverse, ?_, ?_, ?_⟩
  · conv_lhs => rw [← List.takeWhile_append_dropWhile pyWS l]
    rw [stripData, List.append_assoc]
    congr 1
    conv_lhs => rw [← List.reverse_reverse (l.dropWhile pyWS),
      ← List.takeWhile_append_dropWhile pyWS (l.dropWhile pyWS).reverse]
    rw [List.reverse_append]
  · rw [List.all_eq_true]
    intro x hx
    exact List.mem_takeWhile_imp hx
  · rw [List.all_eq_true]
    intro x hx
    exact List.mem_takeWhile_imp (List.mem_reverse.mp hx)

/-- The stripped line never starts with whitespace. -/
theorem stripData_head (l : List Char) (c : Char)
    (h : (stripData l).head? = some c) : pyWS c = false := by
  have hd : stripData l ++ ((l.dropWhile pyWS).reverse.takeWhile pyWS).reverse
      = l.dropWhile pyWS := by
    rw [stripData]
    conv_rhs => rw [← List.reverse_reverse (l.dropWhile pyWS),
      ← List.takeWhile_append_dropWhile pyWS (l.dropWhile pyWS).reverse]
    rw [List.reverse_append]
  cases hs : stripData l with
  | nil => rw [hs] at h; simp at h
  | cons a t =>
    rw [hs] at h
    have hac : a = c := by simpa using h
    subst hac
    apply head?_dropWhile_not pyWS l a
    rw [← hd, hs]
    simp

/-- The stripped line never ends with whitespace. -/
theorem stripData_getLast (l : List Char) (c : Char)
    (h : (stripData l).getLast? = some c) : pyWS c = false := by
  rw [stripData, List.getLast?_reverse] at h
  exact head?_dropWhile_not pyWS _ c h

/-! ## Helper lemmas: the scanner and the output file -/

/-- Pre-filtering a file listing by "name is not the reserved output name"
changes nothing for a reader that already maps reserved names to `none`. -/
theorem filterMap_filter_badkey {α β : Type} (key : α → String) (g : α → Option β)
    (hg : ∀ a, key a = FILENAME_TODOS → g a = none) :
    ∀ l : List α, (l.filter (fun a => key a != FILENAME_TODOS)).filterMap g = l.filterMap g
  | [] => rfl
  | a :: t => by
    by_cases h : key a = FILENAME_TODOS
    · simp [List.filter_cons, h, hg a h, filterMap_filter_badkey key g hg t]
    · simp [List.filter_cons, h, List.filterMap_cons, filterMap_filter_badkey key g hg t]

/-- Writing `open_todos.md` does not change what the root script's Scanner
yields: the reserved name is filtered out, everything else is untouched. -/
theorem walk_through_notes_writeOutput (path : String) (fs : FS) (content : List String) :
    walk_through_notes path (writeOutput fs content) = walk_through_notes path fs := by
  cases fs with
  | dir subdirs files =>
    show ((walkLabeled pathJoin path (writeOutput (.dir subdirs files) content)).flatMap _)
      = ((walkLabeled pathJoin path (.dir subdirs files)).flatMap _)
    rw [writeOutput, walkLabeled, walkLabeled, List.flatMap_cons, List.flatMap_cons]
    congr 1
    rw [List.filterMap_append]
    have h2 : List.filterMap
        (fun f => if strEndsWith f.1 MARKDOWN_EXTENSION && f.1 != FILENAME_TODOS then
          some (pathJoin path f.1, f.2) else none)
        [(FILENAME_TODOS, (some content : FileData))] = [] := by
      simp
    rw [h2, List.append_nil]
    exact filterMap_filter_badkey Prod.fst _ (fun a ha => by simp [ha]) files

/-- The same stability for the packaged Scanner. -/
theorem pkg_walk_through_notes_afterWrite (e : TodoExtractor) (content : List String) :
    (e.afterWrite content).walk_through_notes = e.walk_through_notes := by
  obtain ⟨name, tree⟩ := e
  cases tree with
  | dir subdirs files =>
    show ((walkLabeled _ name (writeOutput (.dir subdirs files) content)).flatMap _)
      = ((walkLabeled _ name (.dir subdirs files)).flatMap _)
    rw [writeOutput, walkLabeled, walkLabeled, List.flatMap_cons, List.flatMap_cons]
    congr 1
    rw [List.filterMap_append]
    have h2 : List.filterMap
        (fun f => if strEndsWith f.1 MARKDOWN_EXTENSION && f.1 != FILENAME_TODOS then
          some (name, f.1, f.2) else none)
        [(FILENAME_TODOS, (some content : FileData))] = [] := by
      simp
    rw [h2, List.append_nil]
    exact filterMap_filter_badkey Prod.fst _ (fun a ha => by simp [ha]) files

/-- A whole re-run of the root script after its own write behaves exactly as
the first run, whatever was written. -/
theorem rerun_root_eq (path : String) (fs : FS) (folders : List String)
    (writeOk : Bool) (content : List String) :
    save_todos_from_notes_in_one_file path (writeOutput fs content) folders writeOk
      = save_todos_from_notes_in_one_file path fs folders writeOk := by
  unfold save_todos_from_notes_in_one_file get_todos_from_path
  rw [walk_through_notes_writeOutput]

/-- A whole re-run of the packaged command after its own write behaves exactly
as the first run. -/
theorem rerun_pkg_eq (e : TodoExtractor) (writeOk : Bool) (content : List String) :
    TodoExtractor.run (e.afterWrite content) writeOk = e.run writeOk := by
  unfold TodoExtractor.run TodoExtractor.get_all_todos TodoExtractor.read_errors
  rw [pkg_walk_through_notes_afterWrite]

/-! ## Helper lemmas: grouping by folder -/

/-- Visiting each distinct folder once and collecting its records is a
permutation of the record list: grouping loses and duplicates nothing. -/
theorem flatMap_filter_folder_perm :
    ∀ (ord : List String) (todos : List TodosFromNote), ord.Nodup →
      (∀ r ∈ todos, r.folder ∈ ord) →
      (ord.flatMap (fun f => todos.filter (fun r => r.folder == f))).Perm todos
  | [], todos, _, hcov => by
    have ht : todos = [] := by
      cases todos with
      | nil => rfl
      | cons r t => exact absurd (hcov r (by simp)) (by simp)
    simp [ht]
  | f :: rest, todos, hnd, hcov => by
    have hf : f ∉ rest := (List.nodup_cons.mp hnd).1
    have hnd' : rest.Nodup := (List.nodup_cons.mp hnd).2
    have htail : ∀ f' ∈ rest,
        todos.filter (fun r => r.folder == f') =
          (todos.filter (fun r => !(r.folder == f))).filter (fun r => r.folder == f') := by
      intro f' hf'
      have hne : f' ≠ f := by rintro rfl; exact hf hf'
      rw [List.filter_filter]
      apply List.filter_congr
      intro r _
      by_cases h : r.folder = f'
      · simp [h, hne]
      · simp [h]
    have hflat : rest.flatMap (fun f' => todos.filter (fun r => r.folder == f')) =
        rest.flatMap (fun f' =>
          (todos.filter (fun r => !(r.folder == f))).filter (fun r => r.folder == f')) := by
      rw [List.flatMap_def, List.flatMap_def, List.map_congr_left htail]
    have hcov' : ∀ r ∈ todos.filter (fun r => !(r.folder == f)), r.folder ∈ rest := by
      intro r hr
      have h1 := List.mem_filter.mp hr
      have h2 := hcov r h1.1
      have h3 : ¬ r.folder = f := by simpa using h1.2
      simpa [h3] using h2
    have ih := flatMap_filter_folder_perm rest
      (todos.filter (fun r => !(r.folder == f))) hnd' hcov'
    have e1 : ((f :: rest).flatMap (fun f => todos.filter (fun r => r.folder == f)))
        = todos.filter (fun r => r.folder == f)
            ++ rest.flatMap (fun f' =>
              (todos.filter (fun r => !(r.folder == f))).filter (fun r => r.folder == f')) := by
      rw [List.flatMap_cons, hflat]
    rw [e1]
    exact (ih.append_left _).trans (List.filter_append_perm _ _)

/-! ## Helper lemmas: picking lines back out of the serialized output -/

/-- A file heading starts with `## `. -/
theorem strStartsWith_file_heading (x : String) :
    strStartsWith ("## " ++ x ++ "\n") "## " = true := by
  have h1 : ("## " ++ x ++ "\n").data = '#' :: '#' :: ' ' :: (x.data ++ ['\n']) := by
    rw [String.data_append, String.data_append]
    rfl
  have h2 : ("## " : String).data = ['#', '#', ' '] := rfl
  rw [strStartsWith, h1, h2]
  simp [List.isPrefixOf]

/-- A folder heading (`# ...`) never starts with `## `. -/
theorem strStartsWith_folder_heading (x : String) :
    strStartsWith ("# " ++ x ++ "\n") "## " = false := by
  have h1 : ("# " ++ x ++ "\n").data = '#' :: ' ' :: (x.data ++ ['\n']) := by
    rw [String.data_append, String.data_append]
    rfl
  have h2 : ("## " : String).data = ['#', '#', ' '] := rfl
  rw [strStartsWith, h1, h2]
  simp [List.isPrefixOf]

/-- The todo lines of one folder's file blocks, as recovered by filtering for
the todo marker. -/
theorem filter_contains_fileblocks :
    ∀ (L : List TodosFromNote),
      (∀ r ∈ L, strContains ("## " ++ r.filename ++ "\n") TODO_IDENTIFIER = false) →
      (∀ r ∈ L, ∀ t ∈ r.todos, strContains (t ++ "\n") TODO_IDENTIFIER = true) →
      (L.flatMap (fun todo_file => ("## " ++ todo_file.filename ++ "\n") ::
          (todo_file.todos.map (fun todo => todo ++ "\n") ++ ["\n"]))).filter
          (fun s => strContains s TODO_IDENTIFIER)
        = L.flatMap (fun r => r.todos.map (fun t => t ++ "\n"))
  | [], _, _ => rfl
  | r :: L, h1, h2 => by
    rw [List.flatMap_cons, List.flatMap_cons, List.filter_append, List.filter_cons]
    have hr1 : strContains ("## " ++ r.filename ++ "\n") TODO_IDENTIFIER = false :=
      h1 r (by simp)
    rw [hr1]
    have hmap : (r.todos.map (fun todo => todo ++ "\n")).filter
        (fun s => strContains s TODO_IDENTIFIER) = r.todos.map (fun todo => todo ++ "\n") := by
      apply List.filter_eq_self.mpr
      intro s hs
      obtain ⟨t, ht, rfl⟩ := List.mem_map.mp hs
      exact h2 r (by simp) t ht
    have hnl : (["\n"] : List String).filter (fun s => strContains s TODO_IDENTIFIER)
        = [] := by decide
    rw [if_neg (by simp), List.filter_append, hmap, hnl, List.append_nil]
    rw [filter_contains_fileblocks L (fun x hx => h1 x (by simp [hx]))
      (fun x hx => h2 x (by simp [hx]))]

/-- The file-heading lines of one folder's file blocks, as recovered by
filtering for the `## ` prefix. -/
theorem filter_heading_fileblocks :
    ∀ (L : List TodosFromNote),
      (∀ r ∈ L, ∀ t ∈ r.todos, strStartsWith (t ++ "\n") "## " = false) →
      (L.flatMap (fun todo_file => ("## " ++ todo_file.filename ++ "\n") ::
          (todo_file.todos.map (fun todo => todo ++ "\n") ++ ["\n"]))).filter
          (fun s => strStartsWith s "## ")
        = L.map (fun r => "## " ++ r.filename ++ "\n")
  | [], _ => rfl
  | r :: L, h1 => by
    rw [List.flatMap_cons, List.filter_append, List.filter_cons]
    rw [strStartsWith_file_heading r.filename]
    have hmap : (r.todos.map (fun todo => todo ++ "\n")).filter
        (fun s => strStartsWith s "## ") = [] := by
      rw [List.filter_eq_nil_iff]
      intro s hs
      obtain ⟨t, ht, rfl⟩ := List.mem_map.mp hs
      simp [h1 r (by simp) t ht]
    have hnl : (["\n"] : List String).filter (fun s => strStartsWith s "## ") = [] := by
      decide
    rw [if_pos rfl, List.filter_append, hmap, hnl, List.append_nil]
    rw [List.map_cons]
    rw [filter_heading_fileblocks L (fun x hx => h1 x (by simp [hx]))]
    rfl

/-- Filtering one folder block for the todo marker recovers exactly that
folder's todo lines, in record order. -/
theorem filter_contains_block (todos : List TodosFromNote) (f : String)
    (hhead : strContains ("# " ++ f ++ "\n") TODO_IDENTIFIER = false)
    (hfile : ∀ r ∈ todos, strContains ("## " ++ r.filename ++ "\n") TODO_IDENTIFIER = false)
    (hmark : ∀ r ∈ todos, ∀ t ∈ r.todos, strContains (t ++ "\n") TODO_IDENTIFIER = true) :
    (format_folder_block todos f).filter (fun s => strContains s TODO_IDENTIFIER)
      = (todos.filter (fun r => r.folder == f)).flatMap
          (fun r => r.todos.map (fun t => t ++ "\n")) := by
  rw [format_folder_block, List.filter_cons, hhead]
  rw [if_neg (by simp), List.filter_append]
  have hnl : (["\n"] : List String).filter (fun s => strContains s TODO_IDENTIFIER)
      = [] := by decide
  rw [hnl, List.append_nil]
  exact filter_contains_fileblocks _
    (fun r hr => hfile r (List.mem_of_mem_filter hr))
    (fun r hr => hmark r (List.mem_of_mem_filter hr))

/-- Filtering one folder block for the `## ` prefix recovers exactly that
folder's file headings, in record order. -/
theorem filter_heading_block (todos : List TodosFromNote) (f : String)
    (hhead : ∀ r ∈ todos, ∀ t ∈ r.todos, strStartsWith (t ++ "\n") "## " = false) :
    (format_folder_block todos f).filter (fun s => strStartsWith s "## ")
      = (todos.filter (fun r => r.folder == f)).map
          (fun r => "## " ++ r.filename ++ "\n") := by
  rw [format_folder_block, List.filter_cons, strStartsWith_folder_heading]
  rw [if_neg (by simp), List.filter_append]
  have hnl : (["\n"] : List String).filter (fun s => strStartsWith s "## ") = [] := by
    decide
  rw [hnl, List.append_nil]
  exact filter_heading_fileblocks _
    (fun r hr => hhead r (List.mem_of_mem_filter hr))

/-- Filtering the whole serialized output for the todo marker recovers the
grouped todo lines, folder by folder. -/
theorem filter_contains_format_todos :
    ∀ (ord : List String) (todos : List TodosFromNote),
      (∀ f ∈ ord, strContains ("# " ++ f ++ "\n") TODO_IDENTIFIER = false) →
      (∀ r ∈ todos, strContains ("## " ++ r.filename ++ "\n") TODO_IDENTIFIER = false) →
      (∀ r ∈ todos, ∀ t ∈ r.todos, strContains (t ++ "\n") TODO_IDENTIFIER = true) →
      (format_todos ord todos).filter (fun s => strContains s TODO_IDENTIFIER)
        = ord.flatMap (fun f => (todos.filter (fun r => r.folder == f)).flatMap
            (fun r => r.todos.map (fun t => t ++ "\n")))
  | [], _, _, _, _ => rfl
  | f :: ord, todos, hhead, hfile, hmark => by
    rw [format_todos, List.flatMap_cons, List.filter_append, List.flatMap_cons]
    rw [filter_contains_block todos f (hhead f (by simp)) hfile hmark]
    have ih := filter_contains_format_todos ord todos
      (fun x hx => hhead x (by simp [hx])) hfile hmark
    rw [format_todos] at ih
    rw [ih]

/-- Filtering the whole serialized output for the `## ` prefix recovers the
grouped file headings, folder by folder. -/
theorem filter_heading_format_todos :
    ∀ (ord : List String) (todos : List TodosFromNote),
      (∀ r ∈ todos, ∀ t ∈ r.todos, strStartsWith (t ++ "\n") "## " = false) →
      (format_todos ord todos).filter (fun s => strStartsWith s "## ")
        = ord.flatMap (fun f => (todos.filter (fun r => r.folder == f)).map
            (fun r => "## " ++ r.filename ++ "\n"))
  | [], _, _ => rfl
  | f :: ord, todos, hhead => by
    rw [format_todos, List.flatMap_cons, List.filter_append, List.flatMap_cons]
    rw [filter_heading_block todos f hhead]
    have ih := filter_heading_format_todos ord todos hhead
    rw [format_todos] at ih
    rw [ih]

/-! ## Helper lemmas: the packaged module's sorted folder order -/

/-- `sorted({...})` is ascending. -/
theorem sorted_folders_sorted (todos : List TodosFromNote) :
    List.Sorted pyStrLe (sorted_folders todos) :=
  List.sorted_insertionSort pyStrLe _

/-- `sorted({todo.folder for todo in todos})` is a legitimate iteration order
of the folder set: distinct names, exactly the folders of `todos`. -/
theorem setOrder_sorted_folders (todos : List TodosFromNote) :
    SetOrder (sorted_folders todos) todos := by
  have hperm : (sorted_folders todos).Perm ((todos.map TodosFromNote.folder).dedup) :=
    List.perm_insertionSort pyStrLe _
  refine ⟨hperm.nodup_iff.mpr (List.nodup_dedup _), ?_, ?_⟩
  · intro f hf
    exact List.mem_dedup.mp (hperm.mem_iff.mp hf)
  · intro f hf
    exact hperm.mem_iff.mpr (List.mem_dedup.mpr hf)

/-- The packaged aggregator is the shared folder-block serialization, visited
in sorted folder order (including the degenerate empty case). -/
theorem pkg_format_todos_eq (todos : List TodosFromNote) :
    TodoExtractor.format_todos todos = format_todos (sorted_folders todos) todos := by
  rw [TodoExtractor.format_todos]
  by_cases h : todos.isEmpty
  · have ht : todos = [] := List.isEmpty_iff.mp h
    subst ht
    simp [sorted_folders, format_todos]
  · rw [if_neg h, format_todos]

/-! ## Helper lemmas: the parser's success case -/

/-- Characterization of a successful root-script parse. -/
theorem get_todos_from_note_some_iff (p : String) (lines : List String) (r : TodosFromNote) :
    get_todos_from_note p (some lines) = some r ↔
      ((lines.filter (fun l => strContains l TODO_IDENTIFIER)).map pyStrip ≠ [] ∧
        r = { folder := (pathSplit (pathSplit p).1).2, filename := (pathSplit p).2,
              todos := (lines.filter (fun l => strContains l TODO_IDENTIFIER)).map pyStrip }) := by
  have hshow : get_todos_from_note p (some lines)
      = (if ((lines.filter (fun l => strContains l TODO_IDENTIFIER)).map pyStrip).isEmpty
          then none
          else some { folder := (pathSplit (pathSplit p).1).2, filename := (pathSplit p).2,
                      todos := (lines.filter
                        (fun l => strContains l TODO_IDENTIFIER)).map pyStrip }) :=
    rfl
  rw [hshow]
  by_cases he : ((lines.filter (fun l => strContains l TODO_IDENTIFIER)).map pyStrip).isEmpty
  · rw [if_pos he]
    simp only [List.isEmpty_iff] at he
    simp [he]
  · rw [if_neg he]
    simp only [List.isEmpty_iff] at he
    constructor
    · intro h
      exact ⟨he, (Option.some.inj h).symm⟩
    · rintro ⟨_, rfl⟩
      rfl

/-- Characterization of a successful packaged-module parse. -/
theorem pkg_get_todos_from_note_some_iff (folder filename : String) (lines : List String)
    (r : TodosFromNote) :
    TodoExtractor.get_todos_from_note folder filename (some lines) = some r ↔
      ((lines.filter (fun l => strContains l TODO_IDENTIFIER)).map pyStrip ≠ [] ∧
        r = { folder := folder, filename := filename,
              todos := (lines.filter (fun l => strContains l TODO_IDENTIFIER)).map pyStrip }) := by
  have hshow : TodoExtractor.get_todos_from_note folder filename (some lines)
      = (if ((lines.filter (fun l => strContains l TODO_IDENTIFIER)).map pyStrip).isEmpty
          then none
          else some { folder := folder, filename := filename,
                      todos := (lines.filter
                        (fun l => strContains l TODO_IDENTIFIER)).map pyStrip }) :=
    rfl
  rw [hshow]
  by_cases he : ((lines.filter (fun l => strContains l TODO_IDENTIFIER)).map pyStrip).isEmpty
  · rw [if_pos he]
    simp only [List.isEmpty_iff] at he
    simp [he]
  · rw [if_neg he]
    simp only [List.isEmpty_iff] at he
    constructor
    · intro h
      exact ⟨he, (Option.some.inj h).symm⟩
    · rintro ⟨_, rfl⟩
      rfl

/-! ## Claims -/

/-- C10 counterexample: with root argument `"notes/"` (trailing separator) and
a matching file directly under the root, the record's folder is `"notes"`, not
the empty string — `os.path.join` absorbs the trailing separator before
`os.path.split` ever sees it. -/
theorem c10_counterexample :
    get_todos_from_path "notes/" (FS.dir FSList.nil [("a.md", some ["* [ ] x"])]) =
      [{ folder := "notes", filename := "a.md", todos := ["* [ ] x"] }] ∧
    ¬ (∀ r ∈ get_todos_from_path "notes/" (FS.dir FSList.nil [("a.md", some ["* [ ] x"])]),
        r.folder = "") := by
  decide

/-- C10 (amended): in the root script, for some valid input — a root path
consisting entirely of separators (such as the file-system root `"/"`) with a
matching file directly under it — the record's folder field is the empty
string (`os.path.split` of an all-separator head keeps it, and splitting it
again yields an empty base name), so the output contains the heading line
`"# "` instead of a directory name.  A merely trailing separator as in
`"notes/"` does not do this: there the folder is the root directory's name. -/
theorem c10_empty_folder_at_fs_root :
    get_todos_from_path "/" (FS.dir FSList.nil [("a.md", some ["* [ ] x"])]) =
      [{ folder := "", filename := "a.md", todos := ["* [ ] x"] }] ∧
    (save_todos_from_notes_in_one_file "/" (FS.dir FSList.nil [("a.md", some ["* [ ] x"])])
        [""] true).written =
      some ["# \n", "## a.md\n", "* [ ] x\n", "\n", "\n"] ∧
    get_todos_from_path "notes/" (FS.dir FSList.nil [("a.md", some ["* [ ] x"])]) =
      [{ folder := "notes", filename := "a.md", todos := ["* [ ] x"] }] := by
  decide

/-- C8: a record is only ever created with at least one todo: whenever either
parser returns a record its `todos` list is non-empty, a file none of whose
lines contains the marker yields no record at all, and consequently every
record in the pipeline's output has a non-empty `todos` list. -/
theorem c8_records_nonempty (p folder filename path : String) (d : FileData) (fs : FS)
    (r s u : TodosFromNote) (lines : List String)
    (h : get_todos_from_note p d = some r)
    (h' : TodoExtractor.get_todos_from_note folder filename d = some s)
    (hno : ∀ l ∈ lines, strContains l TODO_IDENTIFIER = false)
    (hu : u ∈ get_todos_from_path path fs) :
    r.todos ≠ [] ∧ s.todos ≠ [] ∧
    get_todos_from_note p (some lines) = none ∧
    TodoExtractor.get_todos_from_note folder filename (some lines) = none ∧
    u.todos ≠ [] := by
  have key : ∀ (q : String) (dd : FileData) (v : TodosFromNote),
      get_todos_from_note q dd = some v → v.todos ≠ [] := by
    intro q dd v hv
    cases dd with
    | none => exact absurd hv (by simp [get_todos_from_note])
    | some ls =>
      obtain ⟨hne, rfl⟩ := (get_todos_from_note_some_iff q ls v).mp hv
      exact hne
  have key' : ∀ (fo fn : String) (dd : FileData) (v : TodosFromNote),
      TodoExtractor.get_todos_from_note fo fn dd = some v → v.todos ≠ [] := by
    intro fo fn dd v hv
    cases dd with
    | none => exact absurd hv (by simp [TodoExtractor.get_todos_from_note])
    | some ls =>
      obtain ⟨hne, rfl⟩ := (pkg_get_todos_from_note_some_iff fo fn ls v).mp hv
      exact hne
  have hfilter : lines.filter (fun l => strContains l TODO_IDENTIFIER) = [] :=
    List.filter_eq_nil_iff.mpr (fun l hl => by simp [hno l hl])
  refine ⟨key p d r h, key' folder filename d s h', ?_, ?_, ?_⟩
  · have : get_todos_from_note p (some lines)
        = (if ((lines.filter (fun l => strContains l TODO_IDENTIFIER)).map pyStrip).isEmpty
            then none
            else some { folder := (pathSplit (pathSplit p).1).2, filename := (pathSplit p).2,
                        todos := (lines.filter
                          (fun l => strContains l TODO_IDENTIFIER)).map pyStrip }) := rfl
    rw [this, hfilter]
    rfl
  · have : TodoExtractor.get_todos_from_note folder filename (some lines)
        = (if ((lines.filter (fun l => strContains l TODO_IDENTIFIER)).map pyStrip).isEmpty
            then none
            else some { folder := folder, filename := filename,
                        todos := (lines.filter
                          (fun l => strContains l TODO_IDENTIFIER)).map pyStrip }) := rfl
    rw [this, hfilter]
    rfl
  · obtain ⟨nd, _, hnd2⟩ := List.mem_filterMap.mp hu
    exact key nd.1 nd.2 u hnd2

/-- C8 witness: the theorem applied to a concrete readable note with one
matching line, a concrete line list with no matching line, and a concrete
tree. -/
theorem c8_witness :
    get_todos_from_note "notes/a.md" (some ["* [ ] x"]) =
        some { folder := "notes", filename := "a.md", todos := ["* [ ] x"] } ∧
    TodoExtractor.get_todos_from_note "notes" "a.md" (some ["* [ ] x"]) =
        some { folder := "notes", filename := "a.md", todos := ["* [ ] x"] } ∧
    (∀ l ∈ (["nothing here", "* [x] done"] : List String),
        strContains l TODO_IDENTIFIER = false) ∧
    ({ folder := "notes", filename := "a.md", todos := ["* [ ] x"] } : TodosFromNote)
        ∈ get_todos_from_path "notes" (FS.dir FSList.nil [("a.md", some ["* [ ] x"])]) ∧
    (({ folder := "notes", filename := "a.md", todos := ["* [ ] x"] } : TodosFromNote).todos
        ≠ [] ∧
      ({ folder := "notes", filename := "a.md", todos := ["* [ ] x"] } : TodosFromNote).todos
        ≠ [] ∧
      get_todos_from_note "notes/a.md" (some ["nothing here", "* [x] done"]) = none ∧
      TodoExtractor.get_todos_from_note "notes" "a.md"
          (some ["nothing here", "* [x] done"]) = none ∧
      ({ folder := "notes", filename := "a.md", todos := ["* [ ] x"] } : TodosFromNote).todos
        ≠ []) :=
  ⟨by decide, by decide, by decide, by decide,
    c8_records_nonempty "notes/a.md" "notes" "a.md" "notes" (some ["* [ ] x"])
      (FS.dir FSList.nil [("a.md", some ["* [ ] x"])]) _ _ _
      ["nothing here", "* [x] done"] (by decide) (by decide) (by decide) (by decide)⟩

/-- C3 counterexample: a line that contains both markers — the literal
`"* [ ] a * [x] b"` — contains `"* [x]"` and yet IS selected by both parsers,
so "every line containing `* [x]` is not selected" fails as stated. -/
theorem c3_counterexample :
    strContains "* [ ] a * [x] b" "* [x]" = true ∧
    get_todos_from_note "notes/a.md" (some ["* [ ] a * [x] b"]) =
      some { folder := "notes", filename := "a.md", todos := ["* [ ] a * [x] b"] } ∧
    TodoExtractor.get_todos_from_note "proj" "a.md" (some ["* [ ] a * [x] b"]) =
      some { folder := "proj", filename := "a.md", todos := ["* [ ] a * [x] b"] } := by
  decide

/-- C3 (amended): in both parsers a line is selected exactly when it contains
the substring `* [ ]` anywhere in it, so a line containing `* [x]` is not
selected unless it also contains `* [ ]`; selected lines are stored stripped
of leading and trailing whitespace and otherwise verbatim (the stored text is
a contiguous substring of the line, with only whitespace removed on either
side and no whitespace left at the edges). -/
theorem c3_marker_detection (p folder filename : String) (lines : List String)
    (r s : TodosFromNote)
    (h : get_todos_from_note p (some lines) = some r)
    (h' : TodoExtractor.get_todos_from_note folder filename (some lines) = some s) :
    r.todos = (lines.filter (fun l => strContains l TODO_IDENTIFIER)).map pyStrip ∧
    s.todos = (lines.filter (fun l => strContains l TODO_IDENTIFIER)).map pyStrip ∧
    (∀ l ∈ lines, strContains l TODO_IDENTIFIER = false →
      l ∉ lines.filter (fun l => strContains l TODO_IDENTIFIER)) ∧
    (∀ l : String, ∃ pre post, l.data = pre ++ (pyStrip l).data ++ post
      ∧ pre.all pyWS = true ∧ post.all pyWS = true) ∧
    (∀ l : String, ∀ c, (pyStrip l).data.head? = some c → pyWS c = false) ∧
    (∀ l : String, ∀ c, (pyStrip l).data.getLast? = some c → pyWS c = false) := by
  obtain ⟨_, rfl⟩ := (get_todos_from_note_some_iff p lines r).mp h
  obtain ⟨_, rfl⟩ := (pkg_get_todos_from_note_some_iff folder filename lines s).mp h'
  refine ⟨rfl, rfl, ?_, ?_, ?_, ?_⟩
  · intro l _ hno hmem
    have := (List.mem_filter.mp hmem).2
    rw [hno] at this
    cases this
  · intro l
    obtain ⟨pre, post, hdec, hpre, hpost⟩ := stripData_decomp l.data
    exact ⟨pre, post, hdec, hpre, hpost⟩
  · intro l c hc
    exact stripData_head l.data c hc
  · intro l c hc
    exact stripData_getLast l.data c hc

/-- C3 witness: the theorem applied to a concrete two-line note in which only
the whitespace-padded marker line is selected. -/
theorem c3_witness :
    get_todos_from_note "notes/a.md" (some ["  * [ ] keep \n", "* [x] done\n"]) =
        some { folder := "notes", filename := "a.md", todos := ["* [ ] keep"] } ∧
    TodoExtractor.get_todos_from_note "notes" "a.md"
        (some ["  * [ ] keep \n", "* [x] done\n"]) =
        some { folder := "notes", filename := "a.md", todos := ["* [ ] keep"] } ∧
    (({ folder := "notes", filename := "a.md", todos := ["* [ ] keep"] } : TodosFromNote).todos
        = ((["  * [ ] keep \n", "* [x] done\n"] : List String).filter
            (fun l => strContains l TODO_IDENTIFIER)).map pyStrip ∧
      ({ folder := "notes", filename := "a.md", todos := ["* [ ] keep"] } : TodosFromNote).todos
        = ((["  * [ ] keep \n", "* [x] done\n"] : List String).filter
            (fun l => strContains l TODO_IDENTIFIER)).map pyStrip ∧
      (∀ l ∈ (["  * [ ] keep \n", "* [x] done\n"] : List String),
        strContains l TODO_IDENTIFIER = false →
          l ∉ (["  * [ ] keep \n", "* [x] done\n"] : List String).filter
            (fun l => strContains l TODO_IDENTIFIER)) ∧
      (∀ l : String, ∃ pre post, l.data = pre ++ (pyStrip l).data ++ post
        ∧ pre.all pyWS = true ∧ post.all pyWS = true) ∧
      (∀ l : String, ∀ c, (pyStrip l).data.head? = some c → pyWS c = false) ∧
      (∀ l : String, ∀ c, (pyStrip l).data.getLast? = some c → pyWS c = false)) :=
  ⟨by decide, by decide,
    c3_marker_detection "notes/a.md" "notes" "a.md" ["  * [ ] keep \n", "* [x] done\n"]
      _ _ (by decide) (by decide)⟩

/-- C1 counterexample: for the record list with folders `Work` then `Life` and
the legitimate set iteration order `["Work", "Life"]`, the root script's
aggregator emits the `Work` block before the `Life` block — the distinct
folder names appear in set order, not in ascending lexicographic order, and
the `Life` block does not precede the `Work` block. -/
theorem c1_counterexample :
    SetOrder ["Work", "Life"]
      [{ folder := "Work", filename := "a.md", todos := ["* [ ] x"] },
       { folder := "Life", filename := "b.md", todos := ["* [ ] y"] }] ∧
    format_todos ["Work", "Life"]
      [{ folder := "Work", filename := "a.md", todos := ["* [ ] x"] },
       { folder := "Life", filename := "b.md", todos := ["* [ ] y"] }] =
      ["# Work\n", "## a.md\n", "* [ ] x\n", "\n", "\n",
       "# Life\n", "## b.md\n", "* [ ] y\n", "\n", "\n"] := by
  decide

/-- C1 (amended): the packaged module's aggregator visits the distinct folder
names in ascending lexicographic order — its folder sequence is sorted, holds
exactly the folders of the records, and drives the serialization — while the
root script's aggregator visits them in whatever iteration order the Python
set supplies, which need not be sorted. -/
theorem c1_folder_order (todos : List TodosFromNote) (ord : List String)
    (hne : todos ≠ []) (hord : SetOrder ord todos) :
    List.Sorted pyStrLe (sorted_folders todos) ∧
    (∀ f, f ∈ sorted_folders todos ↔ f ∈ todos.map TodosFromNote.folder) ∧
    TodoExtractor.format_todos todos
      = (sorted_folders todos).flatMap (format_folder_block todos) ∧
    format_todos ord todos = ord.flatMap (format_folder_block todos) := by
  refine ⟨sorted_folders_sorted todos, ?_, ?_, rfl⟩
  · intro f
    exact ⟨fun hf => (setOrder_sorted_folders todos).2.1 hf,
           fun hf => (setOrder_sorted_folders todos).2.2 hf⟩
  · rw [pkg_format_todos_eq, format_todos]

/-- C1 witness: the theorem applied to the `Work`/`Life` records; in
particular the sorted folder sequence is `["Life", "Work"]`. -/
theorem c1_witness :
    ([{ folder := "Work", filename := "a.md", todos := ["* [ ] x"] },
      { folder := "Life", filename := "b.md", todos := ["* [ ] y"] }] : List TodosFromNote)
        ≠ [] ∧
    SetOrder ["Work", "Life"]
      [{ folder := "Work", filename := "a.md", todos := ["* [ ] x"] },
       { folder := "Life", filename := "b.md", todos := ["* [ ] y"] }] ∧
    sorted_folders
      [{ folder := "Work", filename := "a.md", todos := ["* [ ] x"] },
       { folder := "Life", filename := "b.md", todos := ["* [ ] y"] }] = ["Life", "Work"] ∧
    (List.Sorted pyStrLe (sorted_folders
        [{ folder := "Work", filename := "a.md", todos := ["* [ ] x"] },
         { folder := "Life", filename := "b.md", todos := ["* [ ] y"] }]) ∧
      (∀ f, f ∈ sorted_folders
          [{ folder := "Work", filename := "a.md", todos := ["* [ ] x"] },
           { folder := "Life", filename := "b.md", todos := ["* [ ] y"] }] ↔
        f ∈ ([{ folder := "Work", filename := "a.md", todos := ["* [ ] x"] },
              { folder := "Life", filename := "b.md", todos := ["* [ ] y"] }] :
                List TodosFromNote).map TodosFromNote.folder) ∧
      TodoExtractor.format_todos
          [{ folder := "Work", filename := "a.md", todos := ["* [ ] x"] },
           { folder := "Life", filename := "b.md", todos := ["* [ ] y"] }]
        = (sorted_folders
            [{ folder := "Work", filename := "a.md", todos := ["* [ ] x"] },
             { folder := "Life", filename := "b.md", todos := ["* [ ] y"] }]).flatMap
            (format_folder_block
              [{ folder := "Work", filename := "a.md", todos := ["* [ ] x"] },
               { folder := "Life", filename := "b.md", todos := ["* [ ] y"] }]) ∧
      format_todos ["Work", "Life"]
          [{ folder := "Work", filename := "a.md", todos := ["* [ ] x"] },
           { folder := "Life", filename := "b.md", todos := ["* [ ] y"] }]
        = (["Work", "Life"] : List String).flatMap
            (format_folder_block
              [{ folder := "Work", filename := "a.md", todos := ["* [ ] x"] },
               { folder := "Life", filename := "b.md", todos := ["* [ ] y"] }])) :=
  ⟨by decide, by decide, by decide,
    c1_folder_order
      [{ folder := "Work", filename := "a.md", todos := ["* [ ] x"] },
       { folder := "Life", filename := "b.md", todos := ["* [ ] y"] }]
      ["Work", "Life"] (by decide) (by decide)⟩

/-- C2 counterexample: on the same unchanged tree with folders `Work` and
`Life`, a first run whose set iteration order is `["Life", "Work"]` followed
by a second run whose set iteration order is `["Work", "Life"]` — both
legitimate orders for the same folder set — writes different bytes to
`open_todos.md`, so "byte-identical output on both runs" fails as stated for
the root script. -/
theorem c2_counterexample :
    let fs := FS.dir
      (FSList.cons "Work" (FS.dir FSList.nil [("a.md", some ["* [ ] x"])])
        (FSList.cons "Life" (FS.dir FSList.nil [("b.md", some ["* [ ] y"])]) FSList.nil)) []
    let run1 := save_todos_from_notes_in_one_file "notes" fs ["Life", "Work"] true
    let fs2 := writeOutput fs (run1.written.getD [])
    let run2 := save_todos_from_notes_in_one_file "notes" fs2 ["Work", "Life"] true
    SetOrder ["Life", "Work"] (get_todos_from_path "notes" fs) ∧
    SetOrder ["Work", "Life"] (get_todos_from_path "notes" fs2) ∧
    run1.written ≠ run2.written := by
  decide

/-- C2 (amended): a second run on the tree produced by the first run's write
behaves exactly like the first run — same written bytes, same messages, same
exit code — provided the root script's folder set is iterated in the same
order both times; the packaged module, which sorts the folder names, needs no
such proviso.  In both implementations the second run's scanner yields
exactly the first run's source files: the written `open_todos.md` is never
picked up. -/
theorem c2_rerun_stable (path : String) (fs : FS) (folders : List String)
    (writeOk : Bool) (content : List String) (e : TodoExtractor) (pkgContent : List String) :
    save_todos_from_notes_in_one_file path (writeOutput fs content) folders writeOk
      = save_todos_from_notes_in_one_file path fs folders writeOk ∧
    walk_through_notes path (writeOutput fs content) = walk_through_notes path fs ∧
    TodoExtractor.run (e.afterWrite pkgContent) writeOk = e.run writeOk ∧
    (e.afterWrite pkgContent).walk_through_notes = e.walk_through_notes := by
  exact ⟨rerun_root_eq path fs folders writeOk content,
    walk_through_notes_writeOutput path fs content,
    rerun_pkg_eq e writeOk pkgContent,
    pkg_walk_through_notes_afterWrite e pkgContent⟩

/-- C4: on non-empty input both Writers report the number of todo-bearing
records written — `len(todos)`, the record count, not the total number of
todo lines — and on the spec's example tree (`proj/a.md` with one open and
one checked task, `proj/b.md` with one open task) the root script writes
exactly the expected block to `notes/open_todos.md` and reports 2 sections. -/
theorem c4_report_record_count (path : String) (fs : FS) (folders : List String)
    (todos : List TodosFromNote)
    (h : get_todos_from_path path fs ≠ []) (h2 : todos ≠ []) :
    (save_todos_from_notes_in_one_file path fs folders true).infoMessages
      = ["✅ Saved " ++ toString (get_todos_from_path path fs).length
          ++ " todo sections to " ++ pathJoin path FILENAME_TODOS] ∧
    (save_todos_from_notes_in_one_file path fs folders true).written
      = some (format_todos folders (get_todos_from_path path fs)) ∧
    (TodoExtractor.save_todos todos true).infoMessages
      = ["Saved " ++ toString todos.length ++ " todo sections"] ∧
    (TodoExtractor.save_todos todos true).written
      = some (TodoExtractor.format_todos todos) ∧
    save_todos_from_notes_in_one_file "notes"
        (FS.dir (FSList.cons "proj"
          (FS.dir FSList.nil
            [("a.md", some ["* [ ] write spec\n", "* [x] done task\n"]),
             ("b.md", some ["* [ ] ship it\n"])]) FSList.nil) [])
        ["proj"] true
      = { exitCode := 0,
          written := some ["# proj\n", "## a.md\n", "* [ ] write spec\n", "\n",
                           "## b.md\n", "* [ ] ship it\n", "\n", "\n"],
          infoMessages := ["✅ Saved 2 todo sections to notes/open_todos.md"],
          errorMessages := [] } ∧
    TodoExtractor.run
        { rootName := "notes",
          tree := FS.dir (FSList.cons "proj"
            (FS.dir FSList.nil
              [("a.md", some ["* [ ] write spec\n", "* [x] done task\n"]),
               ("b.md", some ["* [ ] ship it\n"])]) FSList.nil) [] } true
      = { exitCode := 0,
          written := some ["# proj\n", "## a.md\n", "* [ ] write spec\n", "\n",
                           "## b.md\n", "* [ ] ship it\n", "\n", "\n"],
          infoMessages := ["Saved 2 todo sections"],
          errorMessages := [] } := by
  have hE : (get_todos_from_path path fs).isEmpty = false := by
    simp [List.isEmpty_iff, h]
  have hE2 : todos.isEmpty = false := by
    simp [List.isEmpty_iff, h2]
  refine ⟨?_, ?_, ?_, ?_, by decide, by decide⟩
  · simp [save_todos_from_notes_in_one_file, save_todos_in_one_file, hE]
  · simp [save_todos_from_notes_in_one_file, save_todos_in_one_file, hE]
  · simp [TodoExtractor.save_todos, hE2]
  · simp [TodoExtractor.save_todos, hE2]

/-- C4 witness: the theorem applied to the spec's example tree, whose record
list has 2 entries (while `a.md` alone would contribute 1 record). -/
theorem c4_witness :
    get_todos_from_path "notes"
        (FS.dir (FSList.cons "proj"
          (FS.dir FSList.nil
            [("a.md", some ["* [ ] write spec\n", "* [x] done task\n"]),
             ("b.md", some ["* [ ] ship it\n"])]) FSList.nil) []) ≠ [] ∧
    ([{ folder := "proj", filename := "a.md", todos := ["* [ ] write spec"] },
      { folder := "proj", filename := "b.md", todos := ["* [ ] ship it"] }] :
        List TodosFromNote) ≠ [] ∧
    (save_todos_from_notes_in_one_file "notes"
        (FS.dir (FSList.cons "proj"
          (FS.dir FSList.nil
            [("a.md", some ["* [ ] write spec\n", "* [x] done task\n"]),
             ("b.md", some ["* [ ] ship it\n"])]) FSList.nil) [])
        ["proj"] true).infoMessages
      = ["✅ Saved " ++ toString (get_todos_from_path "notes"
          (FS.dir (FSList.cons "proj"
            (FS.dir FSList.nil
              [("a.md", some ["* [ ] write spec\n", "* [x] done task\n"]),
               ("b.md", some ["* [ ] ship it\n"])]) FSList.nil) [])).length
          ++ " todo sections to " ++ pathJoin "notes" FILENAME_TODOS] :=
  ⟨by decide, by decide,
    (c4_report_record_count "notes"
      (FS.dir (FSList.cons "proj"
        (FS.dir FSList.nil
          [("a.md", some ["* [ ] write spec\n", "* [x] done task\n"]),
           ("b.md", some ["* [ ] ship it\n"])]) FSList.nil) [])
      ["proj"]
      [{ folder := "proj", filename := "a.md", todos := ["* [ ] write spec"] },
       { folder := "proj", filename := "b.md", todos := ["* [ ] ship it"] }]
      (by decide) (by decide)).1⟩

/-- C5: an unreadable/undecodable note makes either parser return "no record"
and put an error on the error channel; the run continues and (when the final
write succeeds) finishes with exit code 0 — a per-file read error never
escalates.  On the spec's partial-failure example (readable `a.md` and `b.md`,
unreadable `c.md`) the root script still writes the output built from `a.md`
and `b.md`, logs one error for `c.md`, and exits 0. -/
theorem c5_read_errors_nonfatal (path p folder filename : String) (fs : FS)
    (folders : List String) (e : TodoExtractor)
    (hmem : (p, (none : FileData)) ∈ walk_through_notes path fs)
    (hmem' : (folder, filename, (none : FileData)) ∈ e.walk_through_notes) :
    get_todos_from_note p none = none ∧
    TodoExtractor.get_todos_from_note folder filename none = none ∧
    ("Error reading " ++ p)
      ∈ (save_todos_from_notes_in_one_file path fs folders true).errorMessages ∧
    ("❌ Error reading " ++ filename) ∈ (TodoExtractor.run e true).errorMessages ∧
    (save_todos_from_notes_in_one_file path fs folders true).exitCode = 0 ∧
    (TodoExtractor.run e true).exitCode = 0 ∧
    save_todos_from_notes_in_one_file "notes"
        (FS.dir (FSList.cons "proj"
          (FS.dir FSList.nil
            [("a.md", some ["* [ ] write spec\n"]),
             ("b.md", some ["* [ ] ship it\n"]),
             ("c.md", none)]) FSList.nil) [])
        ["proj"] true
      = { exitCode := 0,
          written := some ["# proj\n", "## a.md\n", "* [ ] write spec\n", "\n",
                           "## b.md\n", "* [ ] ship it\n", "\n", "\n"],
          infoMessages := ["✅ Saved 2 todo sections to notes/open_todos.md"],
          errorMessages := ["Error reading notes/proj/c.md"] } := by
  have hmr : ("Error reading " ++ p) ∈ (walk_through_notes path fs).flatMap
      (fun nd => get_todos_from_note_errlog nd.1 nd.2) :=
    List.mem_flatMap.mpr ⟨(p, none), hmem, by simp [get_todos_from_note_errlog]⟩
  have hmr' : ("❌ Error reading " ++ filename) ∈ e.read_errors :=
    List.mem_flatMap.mpr ⟨(folder, filename, none), hmem',
      by simp [TodoExtractor.get_todos_from_note_errlog]⟩
  refine ⟨rfl, rfl, ?_, ?_, ?_, ?_, by decide⟩
  · by_cases hE : (get_todos_from_path path fs).isEmpty
    · simpa [save_todos_from_notes_in_one_file, hE] using hmr
    · simpa [save_todos_from_notes_in_one_file, save_todos_in_one_file, hE] using hmr
  · by_cases hE : e.get_all_todos.isEmpty
    · simpa [TodoExtractor.run, TodoExtractor.save_todos, hE] using hmr'
    · simpa [TodoExtractor.run, TodoExtractor.save_todos, hE] using hmr'
  · by_cases hE : (get_todos_from_path path fs).isEmpty
    · simp [save_todos_from_notes_in_one_file, hE]
    · simp [save_todos_from_notes_in_one_file, save_todos_in_one_file, hE]
  · by_cases hE : e.get_all_todos.isEmpty
    · simp [TodoExtractor.run, TodoExtractor.save_todos, hE]
    · simp [TodoExtractor.run, TodoExtractor.save_todos, hE]

/-- C5 witness: the theorem applied to the partial-failure tree, with the
unreadable `c.md` as the failing file in both implementations. -/
theorem c5_witness :
    ("notes/proj/c.md", (none : FileData)) ∈ walk_through_notes "notes"
        (FS.dir (FSList.cons "proj"
          (FS.dir FSList.nil
            [("a.md", some ["* [ ] write spec\n"]),
             ("b.md", some ["* [ ] ship it\n"]),
             ("c.md", none)]) FSList.nil) []) ∧
    ("proj", "c.md", (none : FileData)) ∈ TodoExtractor.walk_through_notes
        { rootName := "notes",
          tree := FS.dir (FSList.cons "proj"
            (FS.dir FSList.nil
              [("a.md", some ["* [ ] write spec\n"]),
               ("b.md", some ["* [ ] ship it\n"]),
               ("c.md", none)]) FSList.nil) [] } ∧
    get_todos_from_note "notes/proj/c.md" none = none ∧
    ("Error reading notes/proj/c.md")
      ∈ (save_todos_from_notes_in_one_file "notes"
          (FS.dir (FSList.cons "proj"
            (FS.dir FSList.nil
              [("a.md", some ["* [ ] write spec\n"]),
               ("b.md", some ["* [ ] ship it\n"]),
               ("c.md", none)]) FSList.nil) [])
          ["proj"] true).errorMessages ∧
    (save_todos_from_notes_in_one_file "notes"
        (FS.dir (FSList.cons "proj"
          (FS.dir FSList.nil
            [("a.md", some ["* [ ] write spec\n"]),
             ("b.md", some ["* [ ] ship it\n"]),
             ("c.md", none)]) FSList.nil) [])
        ["proj"] true).exitCode = 0 :=
  ⟨by decide, by decide, by decide,
    have h := c5_read_errors_nonfatal "notes" "notes/proj/c.md" "proj" "c.md"
      (FS.dir (FSList.cons "proj"
        (FS.dir FSList.nil
          [("a.md", some ["* [ ] write spec\n"]),
           ("b.md", some ["* [ ] ship it\n"]),
           ("c.md", none)]) FSList.nil) [])
      ["proj"]
      { rootName := "notes",
        tree := FS.dir (FSList.cons "proj"
          (FS.dir FSList.nil
            [("a.md", some ["* [ ] write spec\n"]),
             ("b.md", some ["* [ ] ship it\n"]),
             ("c.md", none)]) FSList.nil) [] }
      (by decide) (by decide)
    h.2.2.1,
    have h := c5_read_errors_nonfatal "notes" "notes/proj/c.md" "proj" "c.md"
      (FS.dir (FSList.cons "proj"
        (FS.dir FSList.nil
          [("a.md", some ["* [ ] write spec\n"]),
           ("b.md", some ["* [ ] ship it\n"]),
           ("c.md", none)]) FSList.nil) [])
      ["proj"]
      { rootName := "notes",
        tree := FS.dir (FSList.cons "proj"
          (FS.dir FSList.nil
            [("a.md", some ["* [ ] write spec\n"]),
             ("b.md", some ["* [ ] ship it\n"]),
             ("c.md", none)]) FSList.nil) [] }
      (by decide) (by decide)
    h.2.2.2.2.1⟩

/-- C6: when no scanned file contributes a record, both implementations
report "no todos found", write nothing (`open_todos.md` is neither created
nor modified) and finish with exit code 0, whatever the write flag would have
been. -/
theorem c6_no_todos (path : String) (fs : FS) (folders : List String) (writeOk : Bool)
    (e : TodoExtractor)
    (h : get_todos_from_path path fs = []) (h' : e.get_all_todos = []) :
    (save_todos_from_notes_in_one_file path fs folders writeOk).written = none ∧
    (save_todos_from_notes_in_one_file path fs folders writeOk).exitCode = 0 ∧
    (save_todos_from_notes_in_one_file path fs folders writeOk).infoMessages
      = ["ℹ️ No todos found in the specified path"] ∧
    (TodoExtractor.run e writeOk).written = none ∧
    (TodoExtractor.run e writeOk).exitCode = 0 ∧
    (TodoExtractor.run e writeOk).infoMessages
      = ["No todos found in the specified path"] := by
  have hE : (get_todos_from_path path fs).isEmpty = true := by simp [h]
  have hE' : e.get_all_todos.isEmpty = true := by simp [h']
  refine ⟨?_, ?_, ?_, ?_, ?_, ?_⟩ <;>
    simp [save_todos_from_notes_in_one_file, TodoExtractor.run,
      TodoExtractor.save_todos, hE, hE']

/-- C6 witness: the theorem applied to a tree whose only note has no matching
line. -/
theorem c6_witness :
    get_todos_from_path "notes"
        (FS.dir FSList.nil [("a.md", some ["nothing to do\n", "* [x] done\n"])]) = [] ∧
    TodoExtractor.get_all_todos
        { rootName := "notes",
          tree := FS.dir FSList.nil [("a.md", some ["nothing to do\n", "* [x] done\n"])] }
      = [] ∧
    (save_todos_from_notes_in_one_file "notes"
        (FS.dir FSList.nil [("a.md", some ["nothing to do\n", "* [x] done\n"])])
        [] true).written = none ∧
    (save_todos_from_notes_in_one_file "notes"
        (FS.dir FSList.nil [("a.md", some ["nothing to do\n", "* [x] done\n"])])
        [] true).exitCode = 0 :=
  ⟨by decide, by decide,
    (c6_no_todos "notes"
      (FS.dir FSList.nil [("a.md", some ["nothing to do\n", "* [x] done\n"])])
      [] true
      { rootName := "notes",
        tree := FS.dir FSList.nil [("a.md", some ["nothing to do\n", "* [x] done\n"])] }
      (by decide) (by decide)).1,
    (c6_no_todos "notes"
      (FS.dir FSList.nil [("a.md", some ["nothing to do\n", "* [x] done\n"])])
      [] true
      { rootName := "notes",
        tree := FS.dir FSList.nil [("a.md", some ["nothing to do\n", "* [x] done\n"])] }
      (by decide) (by decide)).2.1⟩

/-- C7: anything either Scanner yields comes from a file entry of the walked
tree whose name ends in `.md` and is not exactly `open_todos.md`; the root
script yields it as the `os.path.join` of the directory label and that
name. -/
theorem c7_scanner_filter (path : String) (fs : FS) (e : TodoExtractor)
    (pd : String × FileData) (t : String × String × FileData)
    (hmem : pd ∈ walk_through_notes path fs) (hmem' : t ∈ e.walk_through_notes) :
    (∃ dirpath files filename, (dirpath, files) ∈ walkFS path fs ∧
      (filename, pd.2) ∈ files ∧ pd.1 = pathJoin dirpath filename ∧
      strEndsWith filename MARKDOWN_EXTENSION = true ∧ filename ≠ FILENAME_TODOS) ∧
    strEndsWith t.2.1 MARKDOWN_EXTENSION = true ∧ t.2.1 ≠ FILENAME_TODOS := by
  constructor
  · obtain ⟨df, hdf, hin⟩ := List.mem_flatMap.mp hmem
    obtain ⟨f, hf, heq⟩ := List.mem_filterMap.mp hin
    by_cases hc : (strEndsWith f.1 MARKDOWN_EXTENSION && f.1 != FILENAME_TODOS) = true
    · rw [if_pos hc] at heq
      obtain rfl : pd = (pathJoin df.1 f.1, f.2) := (Option.some.inj heq).symm
      obtain ⟨hmd, hbne⟩ := Bool.and_eq_true_iff.mp hc
      refine ⟨df.1, df.2, f.1, ?_, ?_, rfl, hmd, by simpa using hbne⟩
      · simpa using hdf
      · simpa using hf
    · rw [if_neg hc] at heq
      exact absurd heq (by simp)
  · obtain ⟨df, hdf, hin⟩ := List.mem_flatMap.mp hmem'
    obtain ⟨f, hf, heq⟩ := List.mem_filterMap.mp hin
    by_cases hc : (strEndsWith f.1 MARKDOWN_EXTENSION && f.1 != FILENAME_TODOS) = true
    · rw [if_pos hc] at heq
      obtain rfl : t = (df.1, f.1, f.2) := (Option.some.inj heq).symm
      obtain ⟨hmd, hbne⟩ := Bool.and_eq_true_iff.mp hc
      exact ⟨hmd, by simpa using hbne⟩
    · rw [if_neg hc] at heq
      exact absurd heq (by simp)

/-- C7 witness: the theorem applied to a nested tree holding a matching note,
a non-Markdown file, and a stale `open_todos.md`, neither of which is the
yielded entry. -/
theorem c7_witness :
    ("notes/proj/a.md", (some ["* [ ] x"] : FileData)) ∈ walk_through_notes "notes"
        (FS.dir (FSList.cons "proj"
          (FS.dir FSList.nil
            [("a.md", some ["* [ ] x"]), ("raw.txt", some []), ("open_todos.md", some [])])
          FSList.nil) []) ∧
    ("proj", "a.md", (some ["* [ ] x"] : FileData)) ∈ TodoExtractor.walk_through_notes
        { rootName := "notes",
          tree := FS.dir (FSList.cons "proj"
            (FS.dir FSList.nil
              [("a.md", some ["* [ ] x"]), ("raw.txt", some []), ("open_todos.md", some [])])
            FSList.nil) [] } ∧
    ((∃ dirpath files filename,
        (dirpath, files) ∈ walkFS "notes"
          (FS.dir (FSList.cons "proj"
            (FS.dir FSList.nil
              [("a.md", some ["* [ ] x"]), ("raw.txt", some []), ("open_todos.md", some [])])
            FSList.nil) []) ∧
        (filename, (some ["* [ ] x"] : FileData)) ∈ files ∧
        "notes/proj/a.md" = pathJoin dirpath filename ∧
        strEndsWith filename MARKDOWN_EXTENSION = true ∧ filename ≠ FILENAME_TODOS) ∧
      strEndsWith "a.md" MARKDOWN_EXTENSION = true ∧ "a.md" ≠ FILENAME_TODOS) :=
  ⟨by decide, by decide,
    c7_scanner_filter "notes"
      (FS.dir (FSList.cons "proj"
        (FS.dir FSList.nil
          [("a.md", some ["* [ ] x"]), ("raw.txt", some []), ("open_todos.md", some [])])
        FSList.nil) [])
      { rootName := "notes",
        tree := FS.dir (FSList.cons "proj"
          (FS.dir FSList.nil
            [("a.md", some ["* [ ] x"]), ("raw.txt", some []), ("open_todos.md", some [])])
          FSList.nil) [] }
      ("notes/proj/a.md", some ["* [ ] x"]) ("proj", "a.md", some ["* [ ] x"])
      (by decide) (by decide)⟩

/-- Filtering the root aggregator's output for the todo marker yields a
permutation of all records' todo lines, for any legitimate set order. -/
theorem format_todos_marker_perm (ord : List String) (todos : List TodosFromNote)
    (hord : SetOrder ord todos)
    (hfold : ∀ r ∈ todos, strContains ("# " ++ r.folder ++ "\n") TODO_IDENTIFIER = false)
    (hfile : ∀ r ∈ todos, strContains ("## " ++ r.filename ++ "\n") TODO_IDENTIFIER = false)
    (hmark : ∀ r ∈ todos, ∀ t ∈ r.todos, strContains (t ++ "\n") TODO_IDENTIFIER = true) :
    ((format_todos ord todos).filter (fun s => strContains s TODO_IDENTIFIER)).Perm
      ((todos.flatMap TodosFromNote.todos).map (fun t => t ++ "\n")) := by
  have hhead : ∀ f ∈ ord, strContains ("# " ++ f ++ "\n") TODO_IDENTIFIER = false := by
    intro f hf
    obtain ⟨r, hr, hrf⟩ := List.mem_map.mp (hord.2.1 hf)
    rw [← hrf]
    exact hfold r hr
  rw [filter_contains_format_todos ord todos hhead hfile hmark]
  have hassoc : ord.flatMap (fun f => (todos.filter (fun r => r.folder == f)).flatMap
      (fun r => r.todos.map (fun t => t ++ "\n")))
      = (ord.flatMap (fun f => todos.filter (fun r => r.folder == f))).flatMap
          (fun r => r.todos.map (fun t => t ++ "\n")) :=
    (List.flatMap_assoc _ _ _).symm
  rw [hassoc]
  have hcov : ∀ r ∈ todos, r.folder ∈ ord := fun r hr =>
    hord.2.2 (List.mem_map_of_mem TodosFromNote.folder hr)
  have h2 : todos.flatMap (fun r => r.todos.map (fun t => t ++ "\n"))
      = (todos.flatMap TodosFromNote.todos).map (fun t => t ++ "\n") :=
    (List.map_flatMap _ _ _).symm
  rw [← h2]
  exact (flatMap_filter_folder_perm ord todos hord.1 hcov).flatMap_right _

/-- Filtering the root aggregator's output for the `## ` prefix yields a
permutation of one file heading per record, for any legitimate set order. -/
theorem format_todos_heading_perm (ord : List String) (todos : List TodosFromNote)
    (hord : SetOrder ord todos)
    (hhead : ∀ r ∈ todos, ∀ t ∈ r.todos, strStartsWith (t ++ "\n") "## " = false) :
    ((format_todos ord todos).filter (fun s => strStartsWith s "## ")).Perm
      (todos.map (fun r => "## " ++ r.filename ++ "\n")) := by
  rw [filter_heading_format_todos ord todos hhead]
  have hmf : ord.flatMap (fun f => (todos.filter (fun r => r.folder == f)).map
      (fun r => "## " ++ r.filename ++ "\n"))
      = (ord.flatMap (fun f => todos.filter (fun r => r.folder == f))).map
          (fun r => "## " ++ r.filename ++ "\n") :=
    (List.map_flatMap _ _ _).symm
  rw [hmf]
  have hcov : ∀ r ∈ todos, r.folder ∈ ord := fun r hr =>
    hord.2.2 (List.mem_map_of_mem TodosFromNote.folder hr)
  exact (flatMap_filter_folder_perm ord todos hord.1 hcov).map _

/-- C9: formatting loses and duplicates nothing, in either implementation and
regardless of the folder iteration order: the todo lines of the serialized
output (the lines containing the marker) are a permutation of all records'
todos, each terminated by one newline, and the `## ` heading lines are a
permutation of one `## filename` heading per record.  (The hypotheses rule
out folder or file names that themselves look like todo lines, and todo texts
that look like `## ` headings — true of every name the pipeline can produce
from a real tree.) -/
theorem c9_formatting_lossless (ord : List String) (todos : List TodosFromNote)
    (hord : SetOrder ord todos)
    (hfold : ∀ r ∈ todos, strContains ("# " ++ r.folder ++ "\n") TODO_IDENTIFIER = false)
    (hfile : ∀ r ∈ todos, strContains ("## " ++ r.filename ++ "\n") TODO_IDENTIFIER = false)
    (hmark : ∀ r ∈ todos, ∀ t ∈ r.todos, strContains (t ++ "\n") TODO_IDENTIFIER = true)
    (hhead : ∀ r ∈ todos, ∀ t ∈ r.todos, strStartsWith (t ++ "\n") "## " = false) :
    ((format_todos ord todos).filter (fun s => strContains s TODO_IDENTIFIER)).Perm
      ((todos.flatMap TodosFromNote.todos).map (fun t => t ++ "\n")) ∧
    ((format_todos ord todos).filter (fun s => strStartsWith s "## ")).Perm
      (todos.map (fun r => "## " ++ r.filename ++ "\n")) ∧
    ((TodoExtractor.format_todos todos).filter (fun s => strContains s TODO_IDENTIFIER)).Perm
      ((todos.flatMap TodosFromNote.todos).map (fun t => t ++ "\n")) ∧
    ((TodoExtractor.format_todos todos).filter (fun s => strStartsWith s "## ")).Perm
      (todos.map (fun r => "## " ++ r.filename ++ "\n")) := by
  refine ⟨format_todos_marker_perm ord todos hord hfold hfile hmark,
    format_todos_heading_perm ord todos hord hhead, ?_, ?_⟩
  · rw [pkg_format_todos_eq]
    exact format_todos_marker_perm _ todos (setOrder_sorted_folders todos) hfold hfile hmark
  · rw [pkg_format_todos_eq]
    exact format_todos_heading_perm _ todos (setOrder_sorted_folders todos) hhead

/-- C9 witness: the theorem applied to two records in distinct folders with
three todos between them, iterated in the non-sorted set order. -/
theorem c9_witness :
    SetOrder ["Work", "Life"]
      [{ folder := "Work", filename := "a.md", todos := ["* [ ] x", "* [ ] y"] },
       { folder := "Life", filename := "b.md", todos := ["* [ ] z"] }] ∧
    ((format_todos ["Work", "Life"]
        [{ folder := "Work", filename := "a.md", todos := ["* [ ] x", "* [ ] y"] },
         { folder := "Life", filename := "b.md", todos := ["* [ ] z"] }]).filter
        (fun s => strContains s TODO_IDENTIFIER)).Perm
      ((([{ folder := "Work", filename := "a.md", todos := ["* [ ] x", "* [ ] y"] },
          { folder := "Life", filename := "b.md", todos := ["* [ ] z"] }] :
            List TodosFromNote).flatMap TodosFromNote.todos).map (fun t => t ++ "\n")) ∧
    ((format_todos ["Work", "Life"]
        [{ folder := "Work", filename := "a.md", todos := ["* [ ] x", "* [ ] y"] },
         { folder := "Life", filename := "b.md", todos := ["* [ ] z"] }]).filter
        (fun s => strStartsWith s "## ")).Perm
      (([{ folder := "Work", filename := "a.md", todos := ["* [ ] x", "* [ ] y"] },
         { folder := "Life", filename := "b.md", todos := ["* [ ] z"] }] :
           List TodosFromNote).map (fun r => "## " ++ r.filename ++ "\n")) ∧
    ((TodoExtractor.format_todos
        [{ folder := "Work", filename := "a.md", todos := ["* [ ] x", "* [ ] y"] },
         { folder := "Life", filename := "b.md", todos := ["* [ ] z"] }]).filter
        (fun s => strContains s TODO_IDENTIFIER)).Perm
      ((([{ folder := "Work", filename := "a.md", todos := ["* [ ] x", "* [ ] y"] },
          { folder := "Life", filename := "b.md", todos := ["* [ ] z"] }] :
            List TodosFromNote).flatMap TodosFromNote.todos).map (fun t => t ++ "\n")) :=
  have h := c9_formatting_lossless ["Work", "Life"]
    [{ folder := "Work", filename := "a.md", todos := ["* [ ] x", "* [ ] y"] },
     { folder := "Life", filename := "b.md", todos := ["* [ ] z"] }]
    (by decide) (by decide) (by decide) (by decide) (by decide)
  ⟨by decide, h.1, h.2.1, h.2.2.1⟩
